import Mathlib

set_option maxRecDepth 100000

/-!
Shallow embedding of the mph_tetra core (NDS cartridge reader, LZSS
decompressor, NitroROM enumerator, SNDFILE extractor) and proofs checking
the natural-language specification against it.

Byte buffers are modelled as `List Nat` whose elements are byte values.
The host is modelled as little-endian (the SDL `SDL_SwapLE*` /
`PHYSFS_swapULE*` corrections are the identity there), matching the
platforms the program targets.  C++ out-of-bounds accesses, which are
undefined behaviour, are modelled by an explicit `oob` result
constructor.  Unbounded loops/recursion are modelled with an explicit
fuel parameter; exhausting it yields an `outOfFuel` result, so genuine
non-termination appears as `outOfFuel` for every fuel value.
-/

/-- Read the byte at index `i` of a buffer (0 when out of range; every
place that can actually index out of range in the C++ is modelled with an
explicit bounds test before using this). -/
def byteAt (l : List Nat) (i : Nat) : Nat := l.getD i 0

/-- Little-endian 16-bit read at `off`. -/
def readLE16 (l : List Nat) (off : Nat) : Nat :=
  byteAt l off + 256 * byteAt l (off + 1)

/-- Little-endian 32-bit read at `off`. -/
def readLE32 (l : List Nat) (off : Nat) : Nat :=
  byteAt l off + 256 * byteAt l (off + 1) + 65536 * byteAt l (off + 2) +
    16777216 * byteAt l (off + 3)

/-- Big-endian 32-bit read at `off` (SNDFILE fields). -/
def readBE32 (l : List Nat) (off : Nat) : Nat :=
  16777216 * byteAt l off + 65536 * byteAt l (off + 1) +
    256 * byteAt l (off + 2) + byteAt l (off + 3)

/-- Uint32 subtraction `a - b` (two's complement wraparound). -/
def sub_u32 (a b : Nat) : Nat := (a + 4294967296 - b) % 4294967296

/-- Little-endian byte encoding of a 32-bit value (used to build concrete
test images). -/
def le32 (n : Nat) : List Nat :=
  [n % 256, n / 256 % 256, n / 65536 % 256, n / 16777216 % 256]

/-- Big-endian byte encoding of a 32-bit value (used to build concrete
SNDFILE test inputs). -/
def be32 (n : Nat) : List Nat :=
  [n / 16777216 % 256, n / 65536 % 256, n / 256 % 256, n % 256]

/-! ## LZSS decompressor (src/util/lzss.cpp)

`decompress_lz10` / `decompress_lz11` walk the input with a cursor
`iter`; the C++ macro `bail_if_next_next_is_unsafe` jumps to the final
size check when `iter > _in.size()`, and the subsequent `next(it)` read
is an out-of-bounds access exactly when `iter = _in.size()`.  The copy
loops append one byte at a time from `_out[_out.size() - disp]`; in
`decompress_lz10` this indexes out of bounds whenever `disp` exceeds the
current output size (the `size_t` subtraction wraps), while
`decompress_lz11` tests `pos > _out.size()` first and jumps to its final
check instead. -/

inductive LzRes
  | ok (out : List Nat)
  | fail (out : List Nat)
  | oob
  | outOfFuel
deriving DecidableEq

/-- Intermediate result of processing the bits of one flag byte. -/
inductive LzStep
  | cont (iter : Nat) (out : List Nat)
  | done (r : LzRes)
deriving DecidableEq

/-- The `end:` label of `decompress_lz10`: compare produced size with the
declared size; `true` (ok) only on an exact match. -/
def lz_end (dsize : Nat) (out : List Nat) : LzRes :=
  if out.length ≠ dsize then .fail out else .ok out

/-- The `end:` label of `decompress_lz11`.  The source returns `false`
on BOTH branches of the final size comparison, so the function can never
report success. -/
def lz11_end (dsize : Nat) (out : List Nat) : LzRes :=
  if out.length ≠ dsize then .fail out else .fail out

/-- LZ10 back-reference copy loop: `count` iterations of
`_out.push_back(_out[_out.size() - disp])` with no bounds check; the
index wraps (out-of-bounds read, modelled as `none`) when
`disp > _out.size()`. -/
def lz10_copy : List Nat → Nat → Nat → Option (List Nat)
  | out, _, 0 => some out
  | out, disp, c + 1 =>
    if out.length < disp then none
    else lz10_copy (out ++ [out.getD (out.length - disp) 0]) disp c

/-- LZ11 back-reference copy loop: the source computes
`pos = _out.size() - disp` in `size_t` and jumps to `end` when
`pos > _out.size()` (i.e. when the subtraction wrapped); the `Bool`
records that early jump. -/
def lz11_copy : List Nat → Nat → Nat → (List Nat × Bool)
  | out, _, 0 => (out, false)
  | out, disp, c + 1 =>
    if out.length < disp then (out, true)
    else lz11_copy (out ++ [out.getD (out.length - disp) 0]) disp c

/-- Process the remaining `i` bits (MSB first) of the LZ10 flag byte `b`.
`de` is `disp_extra` (1 normal, 3 overlay). -/
def lz10_bits (inp : List Nat) (dsize de b : Nat) :
    Nat → Nat → List Nat → LzStep
  | 0, iter, out => .cont iter out
  | i + 1, iter, out =>
    if (b >>> i) % 2 = 0 then
      if inp.length < iter then .done (lz_end dsize out)
      else if iter = inp.length then .done .oob
      else
        let out' := out ++ [byteAt inp iter]
        if dsize ≤ out'.length then .done (lz_end dsize out')
        else lz10_bits inp dsize de b i (iter + 1) out'
    else
      if inp.length < iter then .done (lz_end dsize out)
      else if iter = inp.length then .done .oob
      else
        let b1 := byteAt inp iter
        if inp.length < iter + 1 then .done (lz_end dsize out)
        else if iter + 1 = inp.length then .done .oob
        else
          let b2 := byteAt inp (iter + 1)
          let sh := 256 * b1 + b2
          let count := sh / 4096 + 3
          let disp := sh % 4096 + de
          match lz10_copy out disp count with
          | none => .done .oob
          | some out' =>
            if dsize ≤ out'.length then .done (lz_end dsize out')
            else lz10_bits inp dsize de b i (iter + 2) out'

/-- The `while (_out.size() < decompressed_size)` loop of
`decompress_lz10`, with explicit fuel. -/
def lz10_run (inp : List Nat) (dsize de : Nat) :
    Nat → Nat → List Nat → LzRes
  | 0, _, _ => .outOfFuel
  | fuel + 1, iter, out =>
    if dsize ≤ out.length then lz_end dsize out
    else if inp.length < iter then lz_end dsize out
    else if iter = inp.length then .oob
    else
      match lz10_bits inp dsize de (byteAt inp iter) 8 (iter + 1) out with
      | .done r => r
      | .cont iter' out' => lz10_run inp dsize de fuel iter' out'

/-- static bool decompress_lz10(...).  Each pass of the while loop
consumes at least one input byte, so `inp.length + 2` fuel is never
exhausted. -/
def decompress_lz10 (inp : List Nat) (offset dsize : Nat)
    (is_overlay : Bool) : LzRes :=
  lz10_run inp dsize (if is_overlay then 3 else 1) (inp.length + 2) offset []

/-- Decode an LZ11 back-reference code starting at the code byte `iter`
points to: perform the per-byte bail/overrun checks and the three
indicator cases.  Returns either an early exit (`.inl`) or
`(count, bLast, iter')` where `bLast` is the last code byte read (its
low nibble holds the displacement's high bits) and `iter'` points at the
final displacement byte. -/
def lz11_code (inp : List Nat) (dsize iter : Nat) (out : List Nat) :
    LzStep ⊕ (Nat × Nat × Nat) :=
  if inp.length < iter then .inl (.done (lz11_end dsize out))
  else if iter = inp.length then .inl (.done .oob)
  else
    let b := byteAt inp iter
    let indicator := b >>> 4
    if indicator = 0 then
      if inp.length < iter + 1 then .inl (.done (lz11_end dsize out))
      else if iter + 1 = inp.length then .inl (.done .oob)
      else
        let b2 := byteAt inp (iter + 1)
        .inr (16 * b + (b2 >>> 4) + 17, b2, iter + 2)
    else if indicator = 1 then
      if inp.length < iter + 1 then .inl (.done (lz11_end dsize out))
      else if iter + 1 = inp.length then .inl (.done .oob)
      else
        let n1 := byteAt inp (iter + 1)
        if inp.length < iter + 2 then .inl (.done (lz11_end dsize out))
        else if iter + 2 = inp.length then .inl (.done .oob)
        else
          let b2 := byteAt inp (iter + 2)
          .inr (4096 * (b % 16) + 16 * n1 + (b2 >>> 4) + 273, b2, iter + 3)
    else
      .inr (indicator + 1, b, iter + 1)

/-- Process the remaining `i` bits (MSB first) of the LZ11 flag byte
`b0`. -/
def lz11_bits (inp : List Nat) (dsize b0 : Nat) :
    Nat → Nat → List Nat → LzStep
  | 0, iter, out => .cont iter out
  | i + 1, iter, out =>
    if (b0 >>> i) % 2 = 0 then
      if inp.length < iter then .done (lz11_end dsize out)
      else if iter = inp.length then .done .oob
      else
        let out' := out ++ [byteAt inp iter]
        if dsize ≤ out'.length then .done (lz11_end dsize out')
        else lz11_bits inp dsize b0 i (iter + 1) out'
    else
      match lz11_code inp dsize iter out with
      | .inl s => s
      | .inr (count, bLast, iter') =>
        if inp.length < iter' then .done (lz11_end dsize out)
        else if iter' = inp.length then .done .oob
        else
          let disp := 256 * (bLast % 16) + byteAt inp iter' + 1
          match lz11_copy out disp count with
          | (out', true) => .done (lz11_end dsize out')
          | (out', false) =>
            if dsize ≤ out'.length then .done (lz11_end dsize out')
            else lz11_bits inp dsize b0 i (iter' + 1) out'

/-- The while loop of `decompress_lz11`, with explicit fuel. -/
def lz11_run (inp : List Nat) (dsize : Nat) :
    Nat → Nat → List Nat → LzRes
  | 0, _, _ => .outOfFuel
  | fuel + 1, iter, out =>
    if dsize ≤ out.length then lz11_end dsize out
    else if inp.length < iter then lz11_end dsize out
    else if iter = inp.length then .oob
    else
      match lz11_bits inp dsize (byteAt inp iter) 8 (iter + 1) out with
      | .done r => r
      | .cont iter' out' => lz11_run inp dsize fuel iter' out'

/-- static bool decompress_lz11(...): rejects overlay mode immediately,
otherwise runs the LZ11 loop (whose final label returns `false`
unconditionally). -/
def decompress_lz11 (inp : List Nat) (offset dsize : Nat)
    (is_overlay : Bool) : LzRes :=
  if is_overlay then .fail []
  else lz11_run inp dsize (inp.length + 2) offset []

/-- static bool decompress_lz_normal(...): magic dispatch and declared
size.  The source stores bytes 1..3 into a zero-padded 32-bit word and
applies `SDL_SwapLE16` to it; on the modelled little-endian host SDL2's
`SDL_SwapLE16(X)` is the transparent macro `(X)`, so the declared size
is the full 24-bit little-endian value. -/
def decompress_lz_normal (inp : List Nat) : LzRes :=
  if inp.length < 4 then .fail []
  else
    let dsize := byteAt inp 1 + 256 * byteAt inp 2 + 65536 * byteAt inp 3
    if byteAt inp 0 = 0x10 then decompress_lz10 inp 4 dsize false
    else if byteAt inp 0 = 0x11 then decompress_lz11 inp 4 dsize false
    else .fail []

/-- Guarded element collection used by `decompress_lz_overlay`: push
`_in[pos + i]` for `i < n`, returning failure if an index reaches the end
of the input (the source returns `false` there). -/
def collect_guarded (inp : List Nat) : Nat → Nat → Option (List Nat)
  | _, 0 => some []
  | pos, n + 1 =>
    if inp.length ≤ pos then none
    else
      match collect_guarded inp (pos + 1) n with
      | none => none
      | some rest => some (byteAt inp pos :: rest)

/-- static bool decompress_lz_overlay(...). -/
def decompress_lz_overlay (inp : List Nat) : LzRes :=
  if 4294967295 < inp.length then .fail []
  else if inp.length < 8 then .fail []
  else
    let filelen := inp.length
    let p := filelen - 8
    let end_delta0 := readLE32 inp p
    let start_delta := readLE32 inp (p + 4)
    let padding := end_delta0 / 16777216
    let end_delta := end_delta0 % 16777216
    let dsize := (start_delta + end_delta) % 4294967296
    if filelen < end_delta then .fail []
    else if end_delta < padding then .fail []
    else
      match collect_guarded inp (filelen - end_delta) (end_delta - padding) with
      | none => .fail []
      | some flip0 =>
        match decompress_lz10 flip0.reverse 0 dsize true with
        | .ok un0 =>
          match collect_guarded inp 0 (filelen - end_delta) with
          | none => .fail []
          | some pre => .ok (pre ++ un0.reverse)
        | .fail _ => .fail []
        | .oob => .oob
        | .outOfFuel => .outOfFuel

/-- bool util::decompress_lz(...). -/
def decompress_lz (inp : List Nat) (is_overlay : Bool) : LzRes :=
  if is_overlay then decompress_lz_overlay inp
  else decompress_lz_normal inp

/-- Modelled from the spec: the declared decompressed size of a
normal-mode stream is the full little-endian 24-bit integer in bytes
1..3 ("The next three bytes are a little-endian 24-bit decompressed
size").  Used to state that the size the source computes and targets is
exactly this value. -/
def spec_declared_size (inp : List Nat) : Nat :=
  byteAt inp 1 + 256 * byteAt inp 2 + 65536 * byteAt inp 3

/-! ## SNDFILE archive extractor (src/util/archive.cpp)

`archive_extract_entries` returns a bare `bool`; every `bail_assert`
failure is the same `false`, modelled as `.fail`.  The per-entry bounds
check `current.offset + current.size_target <= in.size()` adds two
`Uint32` values, so the sum is reduced mod 2^32 before the comparison;
the `memcpy` that follows reads `size_target` bytes with exact `size_t`
arithmetic and is an out-of-bounds read (`.oob`) whenever the exact sum
exceeds the input length. -/

/-- An extracted archive entry: 32-byte fixed-width name and payload. -/
structure ArcEntry where
  fname : List Nat
  data : List Nat
deriving DecidableEq

inductive ArcRes
  | ok (entries : List ArcEntry)
  | fail
  | oob
deriving DecidableEq

/-- strncmp(header.magic, "SNDFILE\0", 8) == 0. -/
def sndfile_magic_ok (inp : List Nat) : Bool :=
  (inp.take 8) = [83, 78, 68, 70, 73, 76, 69, 0]

/-- The per-entry loop of `archive_extract_entries`; `remaining` counts
the entries left, `i` the current index.  Entry `i` occupies bytes
`32 + 64*i ..`, with `offset` at +32, `size_padded` at +36 (read but
unused) and `size_target` at +40. -/
def archive_entries_loop (inp : List Nat) :
    Nat → Nat → List ArcEntry → ArcRes
  | 0, _, acc => .ok acc
  | remaining + 1, i, acc =>
    let base := 32 + 64 * i
    let offset := readBE32 inp (base + 32)
    let size_target := readBE32 inp (base + 40)
    if ¬ offset ≤ inp.length then .fail
    else if ¬ (offset + size_target) % 4294967296 ≤ inp.length then .fail
    else if inp.length < offset + size_target then .oob
    else
      archive_entries_loop inp remaining (i + 1)
        (acc ++ [⟨(inp.drop base).take 32, (inp.drop offset).take size_target⟩])

/-- bool util::archive_extract_entries(...). -/
def archive_extract_entries (inp : List Nat) : ArcRes :=
  if inp.length < 32 then .fail
  else if ¬ sndfile_magic_ok inp then .fail
  else
    let file_count := readBE32 inp 8
    let archive_size := readBE32 inp 12
    if ¬ 32 + 64 * file_count < inp.length then .fail
    else if archive_size ≠ inp.length then .fail
    else archive_entries_loop inp file_count 0 []

/-- Concrete SNDFILE input for the 32-bit wraparound hole: one entry
whose `offset` is 96 and whose `size_target` is 0xFFFFFFFF.  The 32-bit
sum wraps to 95, which passes the bound check, and the following
`memcpy` reads ~4 GiB from a 97-byte buffer. -/
def c7_input : List Nat :=
  [83, 78, 68, 70, 73, 76, 69, 0] ++ be32 1 ++ be32 97 ++
    List.replicate 16 0 ++
    List.replicate 32 0 ++ be32 96 ++ be32 0 ++ be32 4294967295 ++
    List.replicate 20 0 ++ [0]

/-- Concrete SNDFILE input for the size-mismatch check: valid magic, zero
files, stored `archive_size` 40 but actual length 41. -/
def c10_input : List Nat :=
  [83, 78, 68, 70, 73, 76, 69, 0] ++ be32 0 ++ be32 40 ++
    List.replicate 16 0 ++ List.replicate 9 0

/-! ## NDS cartridge header (src/util/nds.cpp, src/util/nds.h)

A header is the first 512 bytes of the image.  Field accessors read at
the offsets fixed by the `nds_cartridge_header_t` layout
(`offsetof(nds_cartridge_header_t, header_crc16) = 0x15E = 350`). -/

def arm9_rom_offset (raw : List Nat) : Nat := readLE32 raw 32
def arm9_address_entry (raw : List Nat) : Nat := readLE32 raw 36
def arm9_address_ram (raw : List Nat) : Nat := readLE32 raw 40
def arm9_size (raw : List Nat) : Nat := readLE32 raw 44
def arm7_rom_offset (raw : List Nat) : Nat := readLE32 raw 48
def arm7_address_entry (raw : List Nat) : Nat := readLE32 raw 52
def arm7_address_ram (raw : List Nat) : Nat := readLE32 raw 56
def arm7_size (raw : List Nat) : Nat := readLE32 raw 60
def file_name_table_offset (raw : List Nat) : Nat := readLE32 raw 64
def file_name_table_size (raw : List Nat) : Nat := readLE32 raw 68
def file_allocation_table_offset (raw : List Nat) : Nat := readLE32 raw 72
def file_allocation_table_size (raw : List Nat) : Nat := readLE32 raw 76
def arm9_overlay_offset (raw : List Nat) : Nat := readLE32 raw 80
def arm9_overlay_size (raw : List Nat) : Nat := readLE32 raw 84
def arm7_overlay_offset (raw : List Nat) : Nat := readLE32 raw 88
def arm7_overlay_size (raw : List Nat) : Nat := readLE32 raw 92
def icon_title_offset (raw : List Nat) : Nat := readLE32 raw 104
def rom_size_header (raw : List Nat) : Nat := readLE32 raw 132
def header_crc16 (raw : List Nat) : Nat := readLE16 raw 350

/-- One bit step of the reflected CRC-16 (polynomial 0xA001), iterated
`n` times. -/
def crc16_bits : Nat → Nat → Nat
  | crc, 0 => crc
  | crc, n + 1 =>
    crc16_bits (if crc % 2 = 1 then (crc / 2) ^^^ 0xA001 else crc / 2) n

/-- SDL_crc16 folded over a byte list (CRC-16/ARC). -/
def SDL_crc16 (crc : Nat) (data : List Nat) : Nat :=
  data.foldl (fun c b => crc16_bits (c ^^^ b % 256) 8) crc

/-- Uint16 nds_cartridge_header_t::compute_header_crc16(): the
constructor re-applied to the already-swapped struct restores the
original on-disk bytes, and the CRC covers the first
`offsetof(nds_cartridge_header_t, header_crc16) = 350` of them. -/
def compute_header_crc16 (raw : List Nat) : Nat :=
  SDL_crc16 0xFFFF (raw.take 350)

/-- bool nds_cartridge_header_t::seems_valid_enough(bool check_crc).
The `NOT_ZERO_IF_OFF` macro in the source expands to `return 4;`, which
in this `bool` function converts to `true`: a table with a non-zero
offset and a zero size makes the function return early with `true`. -/
def seems_valid_enough (raw : List Nat) (check_crc : Bool) : Bool :=
  if rom_size_header raw ≤ 350 then false
  else if arm9_address_entry raw < 0x02000000 ∨ arm9_address_ram raw < 0x02000000 ∨
      arm9_size raw = 0 ∨ arm9_rom_offset raw < rom_size_header raw then false
  else if arm7_address_entry raw < 0x02000000 ∨ arm7_address_ram raw < 0x02000000 ∨
      arm7_size raw = 0 ∨ arm7_rom_offset raw < rom_size_header raw then false
  else if file_allocation_table_offset raw ≠ 0 ∧ file_allocation_table_size raw = 0 then true
  else if file_name_table_offset raw ≠ 0 ∧ file_name_table_size raw = 0 then true
  else if arm9_overlay_offset raw ≠ 0 ∧ arm9_overlay_size raw = 0 then true
  else if arm7_overlay_offset raw ≠ 0 ∧ arm7_overlay_size raw = 0 then true
  else if icon_title_offset raw ≠ 0 ∧ icon_title_offset raw < 0x8000 then false
  else if check_crc ∧ compute_header_crc16 raw ≠ header_crc16 raw then false
  else true

/-- Build a concrete 512-byte header image with the given field values
(all other bytes zero); offsets follow `nds_cartridge_header_t`. -/
def mk_header (a9_rom a9_entry a9_ram a9_size : Nat)
    (a7_rom a7_entry a7_ram a7_size : Nat)
    (fnt_off fnt_size fat_off fat_size : Nat)
    (a9ov_off a9ov_size a7ov_off a7ov_size : Nat)
    (icon_off rsh : Nat) : List Nat :=
  List.replicate 32 0 ++
    le32 a9_rom ++ le32 a9_entry ++ le32 a9_ram ++ le32 a9_size ++
    le32 a7_rom ++ le32 a7_entry ++ le32 a7_ram ++ le32 a7_size ++
    le32 fnt_off ++ le32 fnt_size ++ le32 fat_off ++ le32 fat_size ++
    le32 a9ov_off ++ le32 a9ov_size ++ le32 a7ov_off ++ le32 a7ov_size ++
    le32 0 ++ le32 0 ++
    le32 icon_off ++
    List.replicate 24 0 ++
    le32 rsh ++
    List.replicate 376 0

/-- Header with an otherwise valid layout but
`file_allocation_table_offset = 0x1000` and
`file_allocation_table_size = 0`. -/
def c4_header : List Nat :=
  mk_header 0x4000 0x02000000 0x02000000 0x1000
    0x5000 0x02000000 0x02000000 0x1000
    0 0 0x1000 0
    0 0 0 0
    0 0x200

/-- Header with an otherwise valid layout but
`file_name_table_offset = 0x900` and `file_name_table_size = 0` (used to
witness that `seems_valid_enough` can return `true` with
`check_crc = true`). -/
def c9_header : List Nat :=
  mk_header 0x4000 0x02000000 0x02000000 0x1000
    0x5000 0x02000000 0x02000000 0x1000
    0x900 0 0 0
    0 0 0 0
    0 0x200

/-! ## NitroROM enumerator (src/util/physfs/archiver_nds.cpp)

`NDS_open_archive` reads a 512-byte header, validates it with
`seems_valid_enough(0)`, loads the FAT and FNT into buffers
(`read_to_buffer` resizes to `len + 8` zero-filled bytes before reading
`len` bytes, so each buffer carries 8 zero padding bytes), registers the
fixed entries and the overlay tables, and recurses through the FNT via
`recurse_dir_table`.  The recursion carries no depth counter; the fuel
parameter of the model decreases on every step, so a run that returns
`outOfFuel` for every fuel diverges in the C++.  FNT pointer accesses
are unchecked in the source; reads outside the loaded buffer are
modelled as `.oob`. -/

/-- A virtual file entry registered through `UNPK_addEntry`. -/
structure VEntry where
  path : String
  isDir : Bool
  pos : Nat
  len : Nat
deriving DecidableEq

inductive NdsRes
  | ok (entries : List VEntry)
  | err
  | oob
  | outOfFuel
deriving DecidableEq

/-- The two mutually recursive pieces of the FNT walk:
`dir` is `recurse_dir_table` on the FNT main entry `dirIdx` (an `Int`
because the source computes `sub_dir_id` as `raw16 - 0xF000` in `int`),
`walk` is its `while (fnt_entry_subtable_parse(...))` loop at byte
position `pos` of the FNT buffer. -/
inductive NdsCall
  | dir (parent : String) (dirIdx : Int)
  | walk (parent : String) (fileId : Nat) (pos : Nat)

/-- Decode a NUL-free FNT name as a path component. -/
def bytesToString (l : List Nat) : String :=
  String.mk (l.map Char.ofNat)

/-- int read_to_buffer(...): resize to `len + 8` zeroed bytes, seek and
read exactly `len` bytes (failure exactly when the read passes the end
of the image). -/
def read_to_buffer (image : List Nat) (offset len : Nat) :
    Option (List Nat) :=
  if offset + len ≤ image.length then
    some (((image.drop offset).take len) ++ List.replicate 8 0)
  else none

/-- static int recurse_dir_table(...) together with its subtable loop,
as one fuel-indexed step function.  `maxFat` is `max_fat_entries`; FAT
reads after the `max_fat_entries` bail are always inside the FAT buffer
and use plain reads. -/
def ndsWalk (fnt fat : List Nat) (maxFat : Nat) :
    Nat → NdsCall → List VEntry → NdsRes
  | 0, _, _ => .outOfFuel
  | fuel + 1, .dir parent dirIdx, acc =>
    if maxFat < 1 then .err
    else if dirIdx < 0 ∨ fnt.length < dirIdx.toNat * 8 + 8 then .oob
    else
      let base := dirIdx.toNat * 8
      ndsWalk fnt fat maxFat fuel
        (.walk parent (readLE16 fnt (base + 4)) (readLE32 fnt base)) acc
  | fuel + 1, .walk parent fileId pos, acc =>
    if fnt.length ≤ pos then .oob
    else
      let ty := byteAt fnt pos
      let nameLen := ty % 128
      if nameLen = 0 then .ok acc
      else if fnt.length < pos + 1 + nameLen then .oob
      else
        let nm := bytesToString ((fnt.drop (pos + 1)).take nameLen)
        let path := parent ++ "/" ++ nm
        if 128 ≤ ty then
          if fnt.length < pos + 1 + nameLen + 2 then .oob
          else
            let subDirId : Int :=
              (readLE16 fnt (pos + 1 + nameLen) : Int) - 0xF000
            match ndsWalk fnt fat maxFat fuel (.dir path subDirId)
                (acc ++ [⟨path, true, 0, 0⟩]) with
            | .ok acc' =>
              ndsWalk fnt fat maxFat fuel
                (.walk parent fileId (pos + 1 + nameLen + 2)) acc'
            | r => r
        else
          if maxFat ≤ fileId then .err
          else
            let s := readLE32 fat (fileId * 8)
            let e := readLE32 fat (fileId * 8 + 4)
            ndsWalk fnt fat maxFat fuel
              (.walk parent (fileId + 1) (pos + 1 + nameLen))
              (acc ++ [⟨path, false, s, sub_u32 e s⟩])

/-- The per-overlay loop of `NDS_load_overlay_table`: `remaining` counts
overlay-table entries left, `i` is the current index; each 32-byte entry
holds `overlay_id` at +0 and `fat_file_id` at +24. -/
def overlay_loop (ovl fat : List Nat) (maxFat : Nat) (pre : String) :
    Nat → Nat → List VEntry → NdsRes
  | 0, _, acc => .ok acc
  | remaining + 1, i, acc =>
    let base := i * 32
    let fat_file_id := readLE32 ovl (base + 24)
    if maxFat ≤ fat_file_id then .err
    else
      let s := readLE32 fat (fat_file_id * 8)
      let e := readLE32 fat (fat_file_id * 8 + 4)
      overlay_loop ovl fat maxFat pre remaining (i + 1)
        (acc ++ [⟨pre ++ toString (readLE32 ovl base), false, s, sub_u32 e s⟩])

/-- static int NDS_load_overlay_table(...): when `offset` and `size` are
both non-zero, register `bin/<pfx>_ovt.bin` over the raw table, then —
only when `size` is a multiple of 32 — load the table and register one
entry per overlay. -/
def NDS_load_overlay_table (image : List Nat) (offset size : Nat)
    (pfx : String) (fat : List Nat) (maxFat : Nat) (acc : List VEntry) :
    NdsRes :=
  if offset ≠ 0 ∧ size ≠ 0 then
    let acc1 := acc ++ [⟨("bin/" ++ pfx) ++ "_ovt.bin", false, offset, size⟩]
    if size % 32 = 0 then
      match read_to_buffer image offset size with
      | none => .err
      | some ovl =>
        overlay_loop ovl fat maxFat (("bin/" ++ pfx) ++ "_overlays/overlay_")
          (size / 32) 0 acc1
    else .ok acc1
  else .ok acc

/-- static int NDS_load_entries(...). -/
def NDS_load_entries (image : List Nat) (fuel : Nat) : NdsRes :=
  match read_to_buffer image (file_allocation_table_offset image)
      (file_allocation_table_size image) with
  | none => .err
  | some fat_buffer =>
    match read_to_buffer image (file_name_table_offset image)
        (file_name_table_size image) with
    | none => .err
    | some fnt_buffer =>
      let maxFat := file_allocation_table_size image / 8
      let acc0 : List VEntry :=
        [⟨"header", false, 0, rom_size_header image⟩,
         ⟨"bin/arm7.bin", false, arm7_rom_offset image, arm7_size image⟩,
         ⟨"bin/arm9.bin", false, arm9_rom_offset image, arm9_size image⟩,
         ⟨"bin/fat.bin", false, file_allocation_table_offset image,
           file_allocation_table_size image⟩,
         ⟨"bin/fnt.bin", false, file_name_table_offset image,
           file_name_table_size image⟩]
      match NDS_load_overlay_table image (arm7_overlay_offset image)
          (arm7_overlay_size image) "arm7" fat_buffer maxFat acc0 with
      | .ok acc1 =>
        match NDS_load_overlay_table image (arm9_overlay_offset image)
            (arm9_overlay_size image) "arm9" fat_buffer maxFat acc1 with
        | .ok acc2 =>
          let acc3 :=
            if icon_title_offset image ≠ 0 then
              acc2 ++ [⟨"bin/banner.bin", false, icon_title_offset image, 0x840⟩]
            else acc2
          ndsWalk fnt_buffer fat_buffer maxFat fuel (.dir "nitrofs" 0) acc3
        | r => r
      | r => r

/-- static void* NDS_open_archive(...): read and validate the header,
then enumerate.  `.ok entries` models a successful open exposing
`entries`; `.err` models the NULL return (bad header, short read, or a
failing `NDS_load_entries`, after which the archive is abandoned). -/
def NDS_open_archive (image : List Nat) (fuel : Nat) : NdsRes :=
  if image.length < 512 then .err
  else if seems_valid_enough image false = false then .err
  else NDS_load_entries image fuel

/-- FAT blob with a single (zero) entry, used by the concrete images. -/
def fat_one_entry : List Nat := List.replicate 8 0

/-- FNT blob whose root main entry points at a subtable containing a
single sub-directory entry named "a" with raw id 0xF000, i.e.
`sub_dir_id = 0`: the root directory contains itself. -/
def fnt_self_cycle : List Nat :=
  [8, 0, 0, 0, 0, 0, 0, 0] ++ [0x81, 0x61, 0x00, 0xF0, 0x00]

/-- FNT blob whose root main entry points at an immediately terminating
subtable (type byte 0). -/
def fnt_empty_root : List Nat :=
  [8, 0, 0, 0, 0, 0, 0, 0] ++ [0x00]

/-- Concrete cartridge image with a self-cycling FNT: valid header, FAT
at 0x200 (one entry), FNT at 0x208 (13 bytes, root contains itself). -/
def c1_image : List Nat :=
  mk_header 0x4000 0x02000000 0x02000000 0x1000
    0x5000 0x02000000 0x02000000 0x1000
    0x208 13 0x200 8
    0 0 0 0
    0 0x200 ++ fat_one_entry ++ fnt_self_cycle

/-- The claim C3 cartridge: 512 bytes, `rom_size_header = 0x200`,
`arm9_rom_offset = 0x4000`, `arm9_size = 0x1000`, arm7 fields valid, and
zero offsets/sizes for FNT, FAT, both overlay tables and icon_title. -/
def c3_image : List Nat :=
  mk_header 0x4000 0x02000000 0x02000000 0x1000
    0x5000 0x02000000 0x02000000 0x1000
    0 0 0 0
    0 0 0 0
    0 0x200

/-- Concrete cartridge image whose arm9 overlay table has offset 0x211
and size 33 (not a multiple of 32): valid header, FAT at 0x200 (one
entry), FNT at 0x208 (9 bytes, empty root directory). -/
def c8_image : List Nat :=
  mk_header 0x4000 0x02000000 0x02000000 0x1000
    0x5000 0x02000000 0x02000000 0x1000
    0x208 9 0x200 8
    0x211 33 0 0
    0 0x200 ++ fat_one_entry ++ fnt_empty_root

/-- The entry list a successful open of `c8_image` produces. -/
def c8_entries : List VEntry :=
  [⟨"header", false, 0, 0x200⟩,
   ⟨"bin/arm7.bin", false, 0x5000, 0x1000⟩,
   ⟨"bin/arm9.bin", false, 0x4000, 0x1000⟩,
   ⟨"bin/fat.bin", false, 0x200, 8⟩,
   ⟨"bin/fnt.bin", false, 0x208, 9⟩,
   ⟨"bin/arm9_ovt.bin", false, 0x211, 33⟩]

/-- The FNT buffer `read_to_buffer` builds for `c1_image` (blob plus the
8 zero padding bytes). -/
def c1_fnt : List Nat := fnt_self_cycle ++ List.replicate 8 0

/-- The FAT buffer `read_to_buffer` builds for `c1_image`. -/
def c1_fat : List Nat := fat_one_entry ++ List.replicate 8 0

/-- The five fixed entries registered for `c1_image` before the FNT
recursion starts. -/
def c1_base_entries : List VEntry :=
  [⟨"header", false, 0, 0x200⟩,
   ⟨"bin/arm7.bin", false, 0x5000, 0x1000⟩,
   ⟨"bin/arm9.bin", false, 0x4000, 0x1000⟩,
   ⟨"bin/fat.bin", false, 0x200, 8⟩,
   ⟨"bin/fnt.bin", false, 0x208, 13⟩]

/-! ## Theorems -/

/-- Helper for claim C1: on the self-cycling FNT of `c1_image`, both
pieces of the walk exhaust any amount of fuel — the directory recursion
of `recurse_dir_table` never returns. -/
theorem c1_walk_self_cycle_diverges (fuel : Nat) :
    (∀ parent acc,
      ndsWalk c1_fnt c1_fat 1 fuel (.dir parent 0) acc = .outOfFuel) ∧
    (∀ parent fileId acc,
      ndsWalk c1_fnt c1_fat 1 fuel (.walk parent fileId 8) acc = .outOfFuel) := by
  induction fuel with
  | zero => exact ⟨fun _ _ => rfl, fun _ _ _ => rfl⟩
  | succ fuel ih =>
    constructor
    · intro parent acc
      calc ndsWalk c1_fnt c1_fat 1 (fuel + 1) (.dir parent 0) acc
          = ndsWalk c1_fnt c1_fat 1 fuel (.walk parent 0 8) acc := rfl
        _ = .outOfFuel := ih.2 parent 0 acc
    · intro parent fileId acc
      have h := ih.1 (parent ++ "/" ++ bytesToString ((c1_fnt.drop 9).take 1))
        (acc ++ [⟨parent ++ "/" ++ bytesToString ((c1_fnt.drop 9).take 1), true, 0, 0⟩])
      calc ndsWalk c1_fnt c1_fat 1 (fuel + 1) (.walk parent fileId 8) acc
          = (match ndsWalk c1_fnt c1_fat 1 fuel
                (.dir (parent ++ "/" ++ bytesToString ((c1_fnt.drop 9).take 1)) 0)
                (acc ++ [⟨parent ++ "/" ++ bytesToString ((c1_fnt.drop 9).take 1),
                  true, 0, 0⟩]) with
             | .ok acc' => ndsWalk c1_fnt c1_fat 1 fuel (.walk parent fileId 12) acc'
             | r => r) := rfl
        _ = .outOfFuel := by rw [h]

/-- Claim C1: the claim states that enumeration terminates with a depth
limit (`TooDeep`) on a directory self-cycle.  `recurse_dir_table`
carries no depth counter at all: opening `c1_image`, whose FNT root
directory contains itself (`sub_dir_id = 0`), exhausts every fuel bound,
i.e. the C++ recursion never terminates. -/
theorem c1_self_cycle_never_terminates (fuel : Nat) :
    NDS_open_archive c1_image fuel = .outOfFuel := by
  have h := (c1_walk_self_cycle_diverges fuel).1 "nitrofs" c1_base_entries
  calc NDS_open_archive c1_image fuel
      = ndsWalk c1_fnt c1_fat 1 fuel (.dir "nitrofs" 0) c1_base_entries := rfl
    _ = .outOfFuel := h

/-- Claim C3 counterexample: opening the claim's minimal cartridge does
not succeed — `recurse_dir_table` bails out with an error because
`max_fat_entries = 0 < 1`, and the archive is abandoned. -/
theorem c3_minimal_cartridge_open_fails :
    NDS_open_archive c3_image 8 = .err := by decide

/-- Claim C3 amended: opening the minimal cartridge (no FAT/FNT) fails
for every fuel bound: the FNT recursion immediately bails because the
FAT holds no entries. -/
theorem c3_minimal_cartridge_open_fails_every_fuel (fuel : Nat) :
    NDS_open_archive c3_image (fuel + 1) = .err := rfl

/-- Claim C4: the claim states `seems_valid_enough` returns false when a
table has a non-zero offset and zero size.  The `NOT_ZERO_IF_OFF` macro
executes `return 4;`, which converts to `true` in this `bool` function:
a header with `file_allocation_table_offset = 0x1000` and
`file_allocation_table_size = 0` is accepted (for either value of
`check_crc`). -/
theorem c4_zero_size_table_accepted :
    file_allocation_table_offset c4_header ≠ 0 ∧
    file_allocation_table_size c4_header = 0 ∧
    seems_valid_enough c4_header false = true ∧
    seems_valid_enough c4_header true = true := by decide

/-- Claim C6: the claim (and the spec's own note) states that a full
output of the declared size is success.  `decompress_lz11` returns
`false` on both branches of its final size check: this well-formed LZ11
input decodes to exactly the declared 17 bytes (17 copies of 0x41, via a
literal 0x41 and a disp-1 back-reference) yet `decompress_lz` reports
failure. -/
theorem c6_lz11_success_reported_as_failure :
    decompress_lz [0x11, 0x11, 0, 0, 0x40, 0x41, 0xF0, 0x00] false =
      .fail (List.replicate 17 0x41) := by decide

/-- Claim C7: the claim states an entry whose exact
`offset + size_target` exceeds the input length fails `OutOfBounds`,
including 32-bit-wrapping sums.  In the source the sum is computed in
`Uint32`: for `offset = 96`, `size_target = 0xFFFFFFFF` on a 97-byte
archive it wraps to 95, passes both checks, and the `memcpy` reads out
of bounds. -/
theorem c7_u32_wrap_bypasses_bounds_check :
    readBE32 c7_input 64 = 96 ∧
    readBE32 c7_input 72 = 4294967295 ∧
    c7_input.length = 97 ∧
    archive_extract_entries c7_input = .oob := by decide

/-- Claim C8 counterexample: a cartridge whose arm9 overlay table has
offset 0x211 and size 33 (not a multiple of 32) opens successfully — it
does not fail. -/
theorem c8_overlay_size_33_open_succeeds :
    NDS_open_archive c8_image 8 = .ok c8_entries := by decide

/-- Claim C8 amended: for an overlay table size that is not a multiple
of 32, the code registers `bin/arm9_ovt.bin` over the raw blob and
silently skips the per-overlay files; opening succeeds (there is no
`BadOverlay` failure), and the entry list contains no
`.../overlay_<id>` entries. -/
theorem c8_overlay_size_33_silently_skipped (fuel : Nat) :
    NDS_open_archive c8_image (fuel + 2) = .ok c8_entries := rfl

/-- Claim C9: `seems_valid_enough` is monotone in `check_crc`: the two
runs take identical branches except the final CRC test, which is only
consulted when `check_crc` holds. -/
theorem c9_seems_valid_monotone (raw : List Nat)
    (h : seems_valid_enough raw true = true) :
    seems_valid_enough raw false = true := by
  unfold seems_valid_enough at h ⊢
  split_ifs at h ⊢ <;> simp_all

/-- Claim C9 witness: a concrete header on which validation with
`check_crc = true` succeeds, hence also with `check_crc = false`. -/
theorem c9_seems_valid_monotone_witness :
    seems_valid_enough c9_header true = true ∧
    seems_valid_enough c9_header false = true :=
  ⟨by decide, c9_seems_valid_monotone c9_header (by decide)⟩

/-- Claim C10: whenever the stored big-endian `archive_size` field
differs from the input's actual length, `archive_extract_entries`
returns failure (each earlier `bail_assert` also returns the same
failure). -/
theorem c10_archive_size_mismatch_rejected (inp : List Nat)
    (h : readBE32 inp 12 ≠ inp.length) :
    archive_extract_entries inp = .fail := by
  simp only [archive_extract_entries]
  split_ifs <;> rfl

/-- Claim C10 witness: an otherwise valid SNDFILE whose `archive_size`
field is one less than the actual length (40 vs 41) is rejected. -/
theorem c10_archive_size_mismatch_rejected_witness :
    readBE32 c10_input 12 = 40 ∧ c10_input.length = 41 ∧
    archive_extract_entries c10_input = .fail :=
  ⟨by decide, by decide,
    c10_archive_size_mismatch_rejected c10_input (by decide)⟩

/-- Helper for claim C5: `lz_end` reports success only when the output
length equals the declared size. -/
theorem lz_end_ok (dsize : Nat) (out out' : List Nat)
    (h : lz_end dsize out = .ok out') : out'.length = dsize := by
  unfold lz_end at h
  split_ifs at h with hl
  simp only [LzRes.ok.injEq] at h
  subst h
  exact not_not.mp hl

/-- Helper for claim C5: any `.done (.ok _)` result of the LZ10 bit loop
carries an output of exactly the declared size. -/
theorem lz10_bits_done_ok (inp : List Nat) (dsize de b : Nat) :
    ∀ i iter out out',
      lz10_bits inp dsize de b i iter out = .done (.ok out') →
      out'.length = dsize := by
  intro i
  induction i with
  | zero =>
    intro iter out out' h
    simp [lz10_bits] at h
  | succ i ih =>
    intro iter out out' h
    simp only [lz10_bits] at h
    split_ifs at h <;>
      first
      | exact ih _ _ _ h
      | (simp only [LzStep.done.injEq] at h; exact lz_end_ok _ _ _ h)
      | simp at h
      | (split at h <;>
          first
          | simp at h
          | (split_ifs at h <;>
              first
              | exact ih _ _ _ h
              | (simp only [LzStep.done.injEq] at h; exact lz_end_ok _ _ _ h)))

/-- Helper for claim C5: any success of the LZ10 while loop carries an
output of exactly the declared size. -/
theorem lz10_run_ok (inp : List Nat) (dsize de : Nat) :
    ∀ fuel iter out out',
      lz10_run inp dsize de fuel iter out = .ok out' →
      out'.length = dsize := by
  intro fuel
  induction fuel with
  | zero =>
    intro iter out out' h
    simp [lz10_run] at h
  | succ fuel ih =>
    intro iter out out' h
    simp only [lz10_run] at h
    split_ifs at h <;>
      first
      | exact lz_end_ok _ _ _ h
      | simp at h
      | (split at h <;> rename_i heq
         · subst h; exact lz10_bits_done_ok _ _ _ _ _ _ _ _ heq
         · exact ih _ _ _ h)

/-- Helper for claim C5: the LZ11 final label returns failure whatever
the produced length. -/
theorem lz11_end_eq_fail (dsize : Nat) (out : List Nat) :
    lz11_end dsize out = .fail out := by
  unfold lz11_end
  split_ifs <;> rfl

/-- Helper for claim C5: every early exit of the LZ11 code-byte decoder
is the final-label failure or an out-of-bounds read. -/
theorem lz11_code_inl (inp : List Nat) (dsize iter : Nat) (out : List Nat)
    (s : LzStep) (h : lz11_code inp dsize iter out = .inl s) :
    s = .done (lz11_end dsize out) ∨ s = .done .oob := by
  simp only [lz11_code] at h
  split_ifs at h <;>
    simp only [Sum.inl.injEq] at h <;>
    subst h <;>
    first
    | exact Or.inl rfl
    | exact Or.inr rfl

/-- Helper for claim C5: the LZ11 bit loop never produces a success. -/
theorem lz11_bits_ne_done_ok (inp : List Nat) (dsize b0 : Nat) :
    ∀ i iter out out',
      lz11_bits inp dsize b0 i iter out ≠ .done (.ok out') := by
  intro i
  induction i with
  | zero =>
    intro iter out out' h
    simp [lz11_bits] at h
  | succ i ih =>
    intro iter out out' h
    simp only [lz11_bits] at h
    split_ifs at h <;>
      first
      | exact ih _ _ _ h
      | (simp [lz11_end_eq_fail] at h; done)
      | (split at h
         · rename_i s heq
           rcases lz11_code_inl _ _ _ _ _ heq with hs | hs <;> subst hs <;>
             simp [lz11_end_eq_fail] at h
         · rename_i cnt bl cbl heq
           split_ifs at h <;>
             first
             | (simp [lz11_end_eq_fail] at h; done)
             | (split at h <;>
                 first
                 | (simp [lz11_end_eq_fail] at h; done)
                 | (split_ifs at h <;>
                     first
                     | simp [lz11_end_eq_fail] at h
                     | exact ih _ _ _ h)))

/-- Helper for claim C5: the LZ11 while loop never reports success (its
final label returns failure on both branches). -/
theorem lz11_run_ne_ok (inp : List Nat) (dsize : Nat) :
    ∀ fuel iter out out',
      lz11_run inp dsize fuel iter out ≠ .ok out' := by
  intro fuel
  induction fuel with
  | zero =>
    intro iter out out' h
    simp [lz11_run] at h
  | succ fuel ih =>
    intro iter out out' h
    simp only [lz11_run] at h
    split_ifs at h <;>
      first
      | simp [lz11_end_eq_fail] at h
      | (split at h <;> rename_i heq
         · subst h; exact lz11_bits_ne_done_ok _ _ _ _ _ _ _ heq
         · exact ih _ _ _ h)

/-- Claim C5: for every normal-mode input of at least 4 bytes with magic
0x10 or 0x11, the size the decoder targets is the full 24-bit
little-endian value of bytes 1..3 (on the little-endian host,
`SDL_SwapLE16` is the transparent macro, so nothing is truncated), and
any successful decode produces exactly that many bytes. -/
theorem c5_decoder_targets_full_24bit_size (inp : List Nat)
    (h4 : 4 ≤ inp.length) :
    (byteAt inp 0 = 0x10 →
      decompress_lz inp false =
        decompress_lz10 inp 4 (spec_declared_size inp) false) ∧
    (byteAt inp 0 = 0x11 →
      decompress_lz inp false =
        decompress_lz11 inp 4 (spec_declared_size inp) false) ∧
    (∀ out, decompress_lz inp false = .ok out →
      out.length = spec_declared_size inp) := by
  have hlen : ¬ inp.length < 4 := by omega
  refine ⟨?_, ?_, ?_⟩
  · intro hm
    simp [decompress_lz, decompress_lz_normal, hlen, hm, spec_declared_size]
  · intro hm
    simp [decompress_lz, decompress_lz_normal, hlen, hm, spec_declared_size]
  · intro out hok
    simp only [decompress_lz, decompress_lz_normal, if_false, if_neg hlen,
      Bool.false_eq_true] at hok
    by_cases h10 : byteAt inp 0 = 0x10
    · rw [if_pos h10] at hok
      exact lz10_run_ok _ _ _ _ _ _ _ hok
    · rw [if_neg h10] at hok
      by_cases h11 : byteAt inp 0 = 0x11
      · rw [if_pos h11] at hok
        exact absurd hok
          (lz11_run_ne_ok _ _ _ _ _ _)
      · rw [if_neg h11] at hok
        simp at hok

/-- Claim C5 witness: a literal-only LZ10 stream declaring size 4
decodes successfully, and the theorem yields that its output length is
the declared 24-bit size. -/
theorem c5_decoder_targets_full_24bit_size_witness :
    decompress_lz [0x10, 4, 0, 0, 0, 0x41, 0x42, 0x43, 0x44] false =
      .ok [0x41, 0x42, 0x43, 0x44] ∧
    ([0x41, 0x42, 0x43, 0x44] : List Nat).length =
      spec_declared_size [0x10, 4, 0, 0, 0, 0x41, 0x42, 0x43, 0x44] :=
  ⟨by decide,
    (c5_decoder_targets_full_24bit_size _ (by decide)).2.2 _ (by decide)⟩
